import Mathlib

/-!
Verification of the train-selection core of the transit proxy service
(`src/main.py`).

The service queries a transit-authority vehicle-position API, classifies
each reported vehicle as live or scheduled-only ("ghost"), computes the
haversine distance from the observer to each vehicle, ranks the live
vehicles by distance, and returns the closest live vehicle together with
a confidence label.

The embedding has two layers, mirroring the two components of the code:

* `calculate_distance` — the haversine great-circle distance, embedded
  over the real numbers (the Python code computes with double-precision
  trigonometric functions; the real-valued embedding captures its
  mathematical content).

* `find_user_train` — the train selector.  Coordinates and distances of
  the selector pipeline are embedded as rationals so that the selection
  logic is executable; the geo-distance collaborator is passed in as the
  function parameter `calc_dist` (the code calls `calculate_distance`
  here, whose transcendental values are irrelevant to the selection
  logic itself).  Fallible steps of the Python code are embedded with
  `Option`/`Except`:

  - the upstream HTTP call (`requests.get` + `raise_for_status`) becomes
    an `Except String Payload` input, the `.error` case standing for a
    caught `requests.RequestException` (the 500 branch);
  - `data['ctatt']['route'][0]['train']` guarded by
    `except (KeyError, IndexError)` becomes `getRawTrains : Payload →
    Option (List RawTrain)`;
  - the per-record `float(t['lat'])` / `float(t['lon'])` conversions,
    which the Python code does NOT guard, are embedded as
    `Option ℚ` fields of the raw record (`none` standing for a missing
    or non-numeric coordinate string); a `none` coordinate makes the
    whole request fail, exactly as the uncaught `ValueError`/`KeyError`
    does in the code (the `.recordError` outcome).
-/

deriving instance DecidableEq for Except

namespace TransitSafe

/-! ## Data model -/

/-- A raw vehicle record as found in the upstream payload
(`t` in the loop of `find_user_train`).  `lat`/`lon` are the results of
`float(t['lat'])` / `float(t['lon'])`: `none` models a missing or
non-numeric coordinate string (an uncaught `KeyError`/`ValueError` in the
code).  `isSch` is the optional schedule flag string. -/
structure RawTrain where
  rn : String
  destNm : String
  nextStaNm : String
  lat : Option ℚ
  lon : Option ℚ
  isSch : Option String
deriving DecidableEq, Repr

/-- A mapped vehicle candidate, one entry of `all_mapped_trains`. -/
structure MappedTrain where
  run_number : String
  destination : String
  next_stop : String
  lat : ℚ
  lon : ℚ
  distance_meters : ℚ
  is_ghost : Bool
deriving DecidableEq, Repr

/-- One entry of the `route` list of the payload. -/
structure RoutePayload where
  train : Option (List RawTrain)
deriving DecidableEq, Repr

/-- The `ctatt` object of the payload. -/
structure Ctatt where
  errNm : Option String
  route : Option (List RoutePayload)
deriving DecidableEq, Repr

/-- The parsed upstream JSON payload (`data` in the code). -/
structure Payload where
  ctatt : Option Ctatt
deriving DecidableEq, Repr

/-- The observable outcome of `find_user_train`:
either an `HTTPException` (status, detail), the early
`{"found": False, "message": ...}` return, the uncaught per-record
exception escaping the handler, or the final selection dictionary. -/
inductive FindResult where
  | httpError (status : Nat) (detail : String)
  | notFound (message : String)
  | recordError (detail : String)
  | selection (found : Bool) (closest_train : Option MappedTrain)
      (confidence : String) (all_trains : List MappedTrain)
deriving DecidableEq, Repr

/-! ## Rounding

Python's `round(x, 1)` rounds to one decimal digit, ties to even
(banker's rounding). -/

/-- Round a rational to the nearest integer, ties to even
(Python's `round(x)`). -/
def roundHalfEven (x : ℚ) : ℤ :=
  let f : ℤ := ⌊x⌋
  let r : ℚ := x - f
  if r < 1/2 then f
  else if 1/2 < r then f + 1
  else if 2 ∣ f then f else f + 1

/-- Python's `round(x, 1)`: round to one decimal digit, ties to even. -/
def round1 (x : ℚ) : ℚ := (roundHalfEven (10 * x) : ℚ) / 10

/-! ## The geo-distance function (`calculate_distance`)

Embedded over the real numbers: `math.radians`, `math.sin`, `math.cos`,
`math.sqrt` become the corresponding real functions, and `math.atan2 y x`
becomes the argument of the complex number `x + y*i` (the same function:
range `(-π, π]`, `atan2 0 0 = 0`). -/

/-- `math.radians`: degrees to radians. -/
noncomputable def radians (x : ℝ) : ℝ := x * Real.pi / 180

/-- `math.atan2 y x`, as the argument of the complex number `x + y*i`. -/
noncomputable def atan2 (y x : ℝ) : ℝ := Complex.arg ⟨x, y⟩

/-- `calculate_distance` from `src/main.py`: haversine distance in meters
with Earth radius `R = 6371000`. -/
noncomputable def calculate_distance (lat1 lon1 lat2 lon2 : ℝ) : ℝ :=
  let R : ℝ := 6371000
  let phi1 := radians lat1
  let phi2 := radians lat2
  let dphi := radians (lat2 - lat1)
  let dlambda := radians (lon2 - lon1)
  let a := Real.sin (dphi / 2) ^ 2 +
    Real.cos phi1 * Real.cos phi2 * Real.sin (dlambda / 2) ^ 2
  let c := 2 * atan2 (Real.sqrt a) (Real.sqrt (1 - a))
  R * c

/-! ## The train selector (`find_user_train`) -/

/-- `data.get('ctatt', {}).get('errNm')`. -/
def upstreamErrName (data : Payload) : Option String :=
  match data.ctatt with
  | none => none
  | some c => c.errNm

/-- Truthiness of `data.get('ctatt', {}).get('errNm')`: the error-name
field is present and a non-empty string. -/
def errTruthy (data : Payload) : Bool :=
  match upstreamErrName data with
  | none => false
  | some s => s ≠ ""

/-- `data['ctatt']['route'][0]['train']` under
`except (KeyError, IndexError)`: `none` when any key on the path is
missing or the route list is empty. -/
def getRawTrains (data : Payload) : Option (List RawTrain) :=
  match data.ctatt with
  | none => none
  | some c =>
    match c.route with
    | none => none
    | some [] => none
    | some (r :: _) => r.train

/-- The body of the `for t in raw_trains` loop: classify the record as
ghost (`t.get('isSch', '0') == '1'`), convert coordinates
(`float(t['lat'])`, `float(t['lon'])` — failure aborts the request), and
build the mapped candidate with the rounded distance. -/
def mapTrain (calc_dist : ℚ → ℚ → ℚ → ℚ → ℚ) (lat lon : ℚ) (t : RawTrain) :
    Except String MappedTrain :=
  let ghost : Bool := t.isSch.getD "0" == "1"
  match t.lat, t.lon with
  | some t_lat, some t_lon =>
    .ok { run_number := t.rn
          destination := t.destNm
          next_stop := t.nextStaNm
          lat := t_lat
          lon := t_lon
          distance_meters := round1 (calc_dist lat lon t_lat t_lon)
          is_ghost := ghost }
  | _, _ => .error "could not convert vehicle record coordinates to float"

/-- The `for t in raw_trains` loop building `all_mapped_trains`: each
record is mapped in order, and the first record whose coordinates fail
to convert aborts the whole request (its exception propagates out of
the handler). -/
def mapTrains (calc_dist : ℚ → ℚ → ℚ → ℚ → ℚ) (lat lon : ℚ) :
    List RawTrain → Except String (List MappedTrain)
  | [] => .ok []
  | t :: ts =>
    match mapTrain calc_dist lat lon t with
    | .error e => .error e
    | .ok m =>
      match mapTrains calc_dist lat lon ts with
      | .error e => .error e
      | .ok ms => .ok (m :: ms)

/-- `live_trains.sort(key=lambda x: x['distance_meters'])`:
Python's stable ascending sort by `distance_meters`, embedded as
insertion sort on the non-strict comparison (any stable sort by a total
preorder computes the same list). -/
def sortTrains (l : List MappedTrain) : List MappedTrain :=
  l.insertionSort (fun a b => a.distance_meters ≤ b.distance_meters)

/-- The confidence label computed at the final `return` of
`find_user_train`: `"High" if (closest and closest['distance_meters'] <
200) else "Low"`. -/
def confidenceOf (closest : Option MappedTrain) : String :=
  match closest with
  | some c => if c.distance_meters < 200 then "High" else "Low"
  | none => "Low"

/-- `find_user_train` from `src/main.py`, from the upstream response on:
the `upstream` argument is the outcome of the guarded
`requests.get`/`raise_for_status`/`json()` block (`.error e` standing
for a caught `requests.RequestException` with message `e`), and
`calc_dist` is the geo-distance collaborator (`calculate_distance` in
the code). -/
def find_user_train (calc_dist : ℚ → ℚ → ℚ → ℚ → ℚ) (lat lon : ℚ)
    (upstream : Except String Payload) : FindResult :=
  match upstream with
  | .error e => .httpError 500 ("Failed to connect to CTA: " ++ e)
  | .ok data =>
    if errTruthy data then
      .httpError 400 ("CTA API Error: " ++ (upstreamErrName data).getD "")
    else
      match getRawTrains data with
      | none => .notFound "No trains found on this line right now."
      | some raw_trains =>
        match mapTrains calc_dist lat lon raw_trains with
        | .error e => .recordError e
        | .ok all_mapped_trains =>
          let live_trains := all_mapped_trains.filter (fun t => !t.is_ghost)
          let closest := (sortTrains live_trains).head?
          .selection closest.isSome closest
            (match closest with
             | some c => if c.distance_meters < 200 then "High" else "Low"
             | none => "Low")
            all_mapped_trains

/-! ## Concrete inputs used to evaluate the pipeline -/

/-- A concrete distance function for evaluating the selector: the
distance to a record is its latitude (so test records can encode their
intended distance directly). -/
def distByLat : ℚ → ℚ → ℚ → ℚ → ℚ := fun _ _ t_lat _ => t_lat

/-- A live record (flag "0") at distance 150. -/
def rawLive150 : RawTrain :=
  { rn := "101", destNm := "Howard", nextStaNm := "Clark/Division",
    lat := some 150, lon := some 0, isSch := some "0" }

/-- A ghost record (flag "1") at distance 10. -/
def rawGhost10 : RawTrain :=
  { rn := "102", destNm := "Howard", nextStaNm := "Clark/Division",
    lat := some 10, lon := some 0, isSch := some "1" }

/-- A live record (flag absent) at distance 199.9. -/
def rawLive199 : RawTrain :=
  { rn := "201", destNm := "95th", nextStaNm := "Monroe",
    lat := some (1999/10), lon := some 0, isSch := none }

/-- A live record (flag "0") at distance 200. -/
def rawLive200 : RawTrain :=
  { rn := "202", destNm := "95th", nextStaNm := "Monroe",
    lat := some 200, lon := some 0, isSch := some "0" }

/-- A record with a missing latitude (`float(t['lat'])` raises). -/
def rawBadCoord : RawTrain :=
  { rn := "301", destNm := "Midway", nextStaNm := "Roosevelt",
    lat := none, lon := some 0, isSch := some "0" }

/-- Two live records at the same distance 50, distinct run numbers. -/
def rawTieA : RawTrain :=
  { rn := "401", destNm := "Kimball", nextStaNm := "Belmont",
    lat := some 50, lon := some 0, isSch := some "0" }

/-- See `rawTieA`. -/
def rawTieB : RawTrain :=
  { rn := "402", destNm := "Kimball", nextStaNm := "Belmont",
    lat := some 50, lon := some 0, isSch := none }

/-- Wrap a train list into a payload with no upstream error. -/
def mkPayload (ts : List RawTrain) : Payload :=
  { ctatt := some { errNm := none, route := some [{ train := some ts }] } }

/-- Payload of the spec example: one live record at 150 m and one ghost
record at 10 m. -/
def payloadAB : Payload := mkPayload [rawLive150, rawGhost10]

/-- Payload with a single live record at 199.9 m. -/
def payload199 : Payload := mkPayload [rawLive199]

/-- Payload with a single live record at 200 m. -/
def payload200 : Payload := mkPayload [rawLive200]

/-- Payload whose first record has a missing coordinate and whose second
record is well-formed. -/
def payloadBad : Payload := mkPayload [rawBadCoord, rawLive150]

/-- Payload with a `ctatt` object but no `route` key. -/
def payloadNoRoute : Payload :=
  { ctatt := some { errNm := none, route := none } }

/-- Payload with an upstream-reported error name and no `route` key. -/
def payloadErr : Payload :=
  { ctatt := some { errNm := some "Invalid API parameter", route := none } }

/-- Payload whose only record is a ghost. -/
def payloadGhostOnly : Payload := mkPayload [rawGhost10]

/-- Payload with two equal-distance live records. -/
def payloadTie : Payload := mkPayload [rawTieA, rawTieB]

/-- The candidate mapped from `rawLive150` under `distByLat`. -/
def m150 : MappedTrain :=
  { run_number := "101", destination := "Howard", next_stop := "Clark/Division",
    lat := 150, lon := 0, distance_meters := 150, is_ghost := false }

/-- The candidate mapped from `rawGhost10` under `distByLat`. -/
def m10g : MappedTrain :=
  { run_number := "102", destination := "Howard", next_stop := "Clark/Division",
    lat := 10, lon := 0, distance_meters := 10, is_ghost := true }

/-- The candidate mapped from `rawLive199` under `distByLat`. -/
def m199 : MappedTrain :=
  { run_number := "201", destination := "95th", next_stop := "Monroe",
    lat := 1999/10, lon := 0, distance_meters := 1999/10, is_ghost := false }

/-- The candidate mapped from `rawLive200` under `distByLat`. -/
def m200 : MappedTrain :=
  { run_number := "202", destination := "95th", next_stop := "Monroe",
    lat := 200, lon := 0, distance_meters := 200, is_ghost := false }

/-- The candidate mapped from `rawTieA` under `distByLat`. -/
def mTieA : MappedTrain :=
  { run_number := "401", destination := "Kimball", next_stop := "Belmont",
    lat := 50, lon := 0, distance_meters := 50, is_ghost := false }

/-- The candidate mapped from `rawTieB` under `distByLat`. -/
def mTieB : MappedTrain :=
  { run_number := "402", destination := "Kimball", next_stop := "Belmont",
    lat := 50, lon := 0, distance_meters := 50, is_ghost := false }

/-- A constant, everywhere non-negative distance function. -/
def cd7 : ℚ → ℚ → ℚ → ℚ → ℚ := fun _ _ _ _ => 7

/-- The candidate mapped from `rawLive150` under `cd7`. -/
def m7live : MappedTrain :=
  { run_number := "101", destination := "Howard", next_stop := "Clark/Division",
    lat := 150, lon := 0, distance_meters := 7, is_ghost := false }

/-- The candidate mapped from `rawGhost10` under `cd7`. -/
def m7ghost : MappedTrain :=
  { run_number := "102", destination := "Howard", next_stop := "Clark/Division",
    lat := 10, lon := 0, distance_meters := 7, is_ghost := true }

/-! ## Lemmas about the stable sort -/

instance : IsTotal MappedTrain (fun a b => a.distance_meters ≤ b.distance_meters) :=
  ⟨fun a b => le_total a.distance_meters b.distance_meters⟩

instance : IsTrans MappedTrain (fun a b => a.distance_meters ≤ b.distance_meters) :=
  ⟨fun _ _ _ => le_trans⟩

lemma sortTrains_sorted (l : List MappedTrain) :
    (sortTrains l).Sorted (fun a b => a.distance_meters ≤ b.distance_meters) :=
  List.sorted_insertionSort _ l

lemma sortTrains_perm (l : List MappedTrain) : List.Perm (sortTrains l) l :=
  List.perm_insertionSort _ l

lemma mem_sortTrains {a : MappedTrain} {l : List MappedTrain} :
    a ∈ sortTrains l ↔ a ∈ l :=
  (sortTrains_perm l).mem_iff

lemma sortTrains_eq_nil {l : List MappedTrain} : sortTrains l = [] ↔ l = [] := by
  constructor
  · intro h
    have h2 := (sortTrains_perm l).length_eq
    rw [h] at h2
    exact List.length_eq_zero.mp (by simpa using h2.symm)
  · intro h; subst h; rfl

/-- Inserting `a` with the non-strict comparison places it before every
element of equal key, so filtering to one distance class commutes with
the insertion. -/
lemma filter_orderedInsert (a : MappedTrain) (s : List MappedTrain) (d : ℚ) :
    (s.orderedInsert (fun x y => x.distance_meters ≤ y.distance_meters) a).filter
        (fun x => decide (x.distance_meters = d)) =
      if a.distance_meters = d then
        a :: s.filter (fun x => decide (x.distance_meters = d))
      else s.filter (fun x => decide (x.distance_meters = d)) := by
  induction s with
  | nil =>
    by_cases h : a.distance_meters = d <;>
      simp [List.orderedInsert, List.filter, h]
  | cons b t ih =>
    by_cases hab : a.distance_meters ≤ b.distance_meters
    · show (List.orderedInsert _ a (b :: t)).filter _ = _
      rw [List.orderedInsert, if_pos hab]
      by_cases ha : a.distance_meters = d <;>
        simp [List.filter, ha]
    · have hba : b.distance_meters < a.distance_meters := lt_of_not_le hab
      show (List.orderedInsert _ a (b :: t)).filter _ = _
      rw [List.orderedInsert, if_neg hab]
      by_cases ha : a.distance_meters = d
      · have hb : b.distance_meters ≠ d := by
          rw [← ha]; exact ne_of_lt hba
        simp [List.filter, hb, ha, ih]
      · by_cases hb : b.distance_meters = d <;>
          simp [List.filter, hb, ha, ih]

/-- Stability of the ranking: filtering the sorted list to any one
distance class gives exactly the same-distance candidates in their
original order. -/
lemma filter_sortTrains (l : List MappedTrain) (d : ℚ) :
    (sortTrains l).filter (fun x => decide (x.distance_meters = d)) =
      l.filter (fun x => decide (x.distance_meters = d)) := by
  induction l with
  | nil => rfl
  | cons a t ih =>
    show (List.orderedInsert _ a (sortTrains t)).filter _ = _
    rw [filter_orderedInsert]
    by_cases h : a.distance_meters = d <;> simp [List.filter, h, ih]

/-- The head of the sorted list is below every element of the list. -/
lemma head_sortTrains_min {l : List MappedTrain} {c : MappedTrain}
    (h : (sortTrains l).head? = some c) :
    ∀ t ∈ l, c.distance_meters ≤ t.distance_meters := by
  intro t ht
  have hmem : t ∈ sortTrains l := mem_sortTrains.mpr ht
  have hs := sortTrains_sorted l
  cases hsl : sortTrains l with
  | nil => rw [hsl] at hmem; cases hmem
  | cons x xs =>
    rw [hsl] at h hmem hs
    have hx : x = c := by simpa using h
    subst hx
    rcases List.mem_cons.mp hmem with rfl | hxs
    · exact le_refl _
    · exact List.rel_of_sorted_cons hs t hxs

/-! ## Lemmas about the mapping loop and the selector -/

/-- Every element of a successful mapping-loop output comes from some
input record. -/
lemma mapTrains_ok_mem {cd : ℚ → ℚ → ℚ → ℚ → ℚ} {lat lon : ℚ}
    {raws : List RawTrain} {all : List MappedTrain}
    (h : mapTrains cd lat lon raws = .ok all) :
    ∀ m ∈ all, ∃ t ∈ raws, mapTrain cd lat lon t = .ok m := by
  induction raws generalizing all with
  | nil =>
    cases h
    intro m hm; cases hm
  | cons a rest ih =>
    rw [mapTrains] at h
    cases ha : mapTrain cd lat lon a with
    | error e => rw [ha] at h; cases h
    | ok m0 =>
      rw [ha] at h
      cases hrest : mapTrains cd lat lon rest with
      | error e => rw [hrest] at h; cases h
      | ok l0 =>
        rw [hrest] at h
        cases h
        intro m hm
        rcases List.mem_cons.mp hm with rfl | hl
        · exact ⟨a, List.mem_cons_self a rest, ha⟩
        · obtain ⟨t, ht, hft⟩ := ih hrest m hl
          exact ⟨t, List.mem_cons_of_mem a ht, hft⟩

/-- Unfolding of `find_user_train` on a successfully fetched payload. -/
lemma find_user_train_ok_eq (cd : ℚ → ℚ → ℚ → ℚ → ℚ) (lat lon : ℚ)
    (data : Payload) :
    find_user_train cd lat lon (.ok data) =
      if errTruthy data then
        .httpError 400 ("CTA API Error: " ++ (upstreamErrName data).getD "")
      else
        match getRawTrains data with
        | none => .notFound "No trains found on this line right now."
        | some raws =>
          match mapTrains cd lat lon raws with
          | .error e => .recordError e
          | .ok all =>
            .selection ((sortTrains (all.filter (fun t => !t.is_ghost))).head?).isSome
              ((sortTrains (all.filter (fun t => !t.is_ghost))).head?)
              (confidenceOf ((sortTrains (all.filter (fun t => !t.is_ghost))).head?))
              all := by
  show (if errTruthy data then _ else _) = _
  by_cases he : errTruthy data
  · rw [if_pos he, if_pos he]
  · rw [if_neg he, if_neg he]
    cases getRawTrains data with
    | none => rfl
    | some raws =>
      cases mapTrains cd lat lon raws with
      | error e => rfl
      | ok all => rfl

/-- The shape of a `selection` outcome: it arises exactly from the final
`return` of `find_user_train`, with each field as built there. -/
lemma selection_inv {cd : ℚ → ℚ → ℚ → ℚ → ℚ} {lat lon : ℚ}
    {up : Except String Payload} {found : Bool} {closest : Option MappedTrain}
    {conf : String} {all : List MappedTrain}
    (h : find_user_train cd lat lon up = .selection found closest conf all) :
    ∃ data raws, up = .ok data ∧ errTruthy data = false ∧
      getRawTrains data = some raws ∧
      mapTrains cd lat lon raws = .ok all ∧
      closest = (sortTrains (all.filter (fun t => !t.is_ghost))).head? ∧
      found = closest.isSome ∧
      conf = confidenceOf closest := by
  cases up with
  | error e => exact absurd h (by simp [find_user_train])
  | ok data =>
    rw [find_user_train_ok_eq] at h
    split at h
    · cases h
    · rename_i he
      split at h
      · cases h
      · rename_i raws hg
        split at h
        · cases h
        · rename_i l hm
          cases h
          exact ⟨data, raws, rfl, Bool.eq_false_iff.mpr he, hg, hm,
            rfl, rfl, rfl⟩

/-- The mapped candidate's ghost classification is exactly
`t.get('isSch', '0') == '1'`. -/
lemma mapTrain_ok_is_ghost {cd : ℚ → ℚ → ℚ → ℚ → ℚ} {lat lon : ℚ}
    {t : RawTrain} {m : MappedTrain}
    (h : mapTrain cd lat lon t = .ok m) :
    m.is_ghost = (t.isSch.getD "0" == "1") := by
  simp only [mapTrain] at h
  split at h
  · cases h; rfl
  · cases h

/-- The mapped candidate's distance is the rounded distance-function
value at the record's parsed coordinates. -/
lemma mapTrain_ok_distance {cd : ℚ → ℚ → ℚ → ℚ → ℚ} {lat lon : ℚ}
    {t : RawTrain} {m : MappedTrain}
    (h : mapTrain cd lat lon t = .ok m) :
    ∃ t_lat t_lon, t.lat = some t_lat ∧ t.lon = some t_lon ∧
      m.distance_meters = round1 (cd lat lon t_lat t_lon) := by
  simp only [mapTrain] at h
  split at h
  · rename_i t_lat t_lon hlat hlon
    cases h
    exact ⟨t_lat, t_lon, hlat, hlon, rfl⟩
  · cases h

/-! ## Lemmas about the geo-distance function and rounding -/

lemma atan2_zero_one : atan2 0 1 = 0 := by
  unfold atan2
  have h : (⟨1, 0⟩ : ℂ) = 1 := by
    apply Complex.ext <;> simp
  rw [h, Complex.arg_one]

lemma atan2_nonneg {y : ℝ} (x : ℝ) (hy : 0 ≤ y) : 0 ≤ atan2 y x := by
  unfold atan2
  exact Complex.arg_nonneg_iff.mpr hy

lemma calculate_distance_symm (lat1 lon1 lat2 lon2 : ℝ) :
    calculate_distance lat1 lon1 lat2 lon2 =
      calculate_distance lat2 lon2 lat1 lon1 := by
  simp only [calculate_distance, radians]
  have hs : ∀ u v : ℝ, Real.sin ((u - v) * Real.pi / 180 / 2) ^ 2 =
      Real.sin ((v - u) * Real.pi / 180 / 2) ^ 2 := by
    intro u v
    have harg : (u - v) * Real.pi / 180 / 2 =
        -((v - u) * Real.pi / 180 / 2) := by ring
    rw [harg, Real.sin_neg]
    ring
  rw [hs lat2 lat1, hs lon2 lon1]
  ring_nf

lemma calculate_distance_self (lat lon : ℝ) :
    calculate_distance lat lon lat lon = 0 := by
  simp only [calculate_distance, radians, sub_self, zero_mul, zero_div,
    Real.sin_zero, ne_eq, OfNat.ofNat_ne_zero, not_false_eq_true,
    zero_pow, mul_zero, add_zero, Real.sqrt_zero, sub_zero, Real.sqrt_one,
    atan2_zero_one]

lemma calculate_distance_nonneg (lat1 lon1 lat2 lon2 : ℝ) :
    0 ≤ calculate_distance lat1 lon1 lat2 lon2 := by
  simp only [calculate_distance, radians]
  refine mul_nonneg (by norm_num) (mul_nonneg (by norm_num) ?_)
  exact atan2_nonneg _ (Real.sqrt_nonneg _)

lemma roundHalfEven_nonneg {x : ℚ} (hx : 0 ≤ x) : 0 ≤ roundHalfEven x := by
  have hf : (0:ℤ) ≤ ⌊x⌋ := Int.floor_nonneg.mpr hx
  simp only [roundHalfEven]
  split_ifs <;> omega

lemma roundHalfEven_intCast (n : ℤ) : roundHalfEven (n:ℚ) = n := by
  simp only [roundHalfEven, Int.floor_intCast]
  norm_num

lemma round1_intCast (n : ℤ) : round1 (n:ℚ) = (n:ℚ) := by
  have h : (10:ℚ) * (n:ℚ) = ((10*n : ℤ):ℚ) := by push_cast; ring
  rw [round1, h, roundHalfEven_intCast]
  push_cast
  field_simp

lemma round1_int_div_ten (n : ℤ) : round1 ((n:ℚ)/10) = (n:ℚ)/10 := by
  have h : (10:ℚ) * ((n:ℚ)/10) = ((n : ℤ):ℚ) := by field_simp
  rw [round1, h, roundHalfEven_intCast]

lemma round1_nonneg {x : ℚ} (hx : 0 ≤ x) : 0 ≤ round1 x := by
  unfold round1
  have h : (0:ℤ) ≤ roundHalfEven (10 * x) :=
    roundHalfEven_nonneg (by positivity)
  have h2 : (0:ℚ) ≤ (roundHalfEven (10 * x) : ℚ) := by exact_mod_cast h
  positivity

/-! ## Evaluation lemmas for the concrete inputs -/

lemma round1_150 : round1 150 = 150 := by simpa using round1_intCast 150

lemma round1_10 : round1 10 = 10 := by simpa using round1_intCast 10

lemma round1_50 : round1 50 = 50 := by simpa using round1_intCast 50

lemma round1_200 : round1 200 = 200 := by simpa using round1_intCast 200

lemma round1_7 : round1 7 = 7 := by simpa using round1_intCast 7

lemma round1_199 : round1 (1999/10) = 1999/10 := by
  simpa using round1_int_div_ten 1999

/-- Unfolding of `find_user_train` when the whole pipeline succeeds. -/
lemma find_user_train_selection_eq {cd : ℚ → ℚ → ℚ → ℚ → ℚ} {lat lon : ℚ}
    {data : Payload} {raws : List RawTrain} {all : List MappedTrain}
    (he : errTruthy data = false)
    (hg : getRawTrains data = some raws)
    (hm : mapTrains cd lat lon raws = .ok all) :
    find_user_train cd lat lon (.ok data) =
      .selection ((sortTrains (all.filter (fun t => !t.is_ghost))).head?).isSome
        ((sortTrains (all.filter (fun t => !t.is_ghost))).head?)
        (confidenceOf ((sortTrains (all.filter (fun t => !t.is_ghost))).head?))
        all := by
  rw [find_user_train_ok_eq, if_neg (by simp [he])]
  simp only [hg, hm]

lemma mapTrain_rawLive150 : mapTrain distByLat 0 0 rawLive150 = .ok m150 := by
  simp only [mapTrain, rawLive150, distByLat, m150, round1_150]
  decide

lemma mapTrain_rawGhost10 : mapTrain distByLat 0 0 rawGhost10 = .ok m10g := by
  simp only [mapTrain, rawGhost10, distByLat, m10g, round1_10]
  decide

lemma mapTrain_rawLive199 : mapTrain distByLat 0 0 rawLive199 = .ok m199 := by
  simp only [mapTrain, rawLive199, distByLat, m199, round1_199,
    Option.getD_none, show (("0":String) == "1") = false from rfl]

lemma mapTrain_rawLive200 : mapTrain distByLat 0 0 rawLive200 = .ok m200 := by
  simp only [mapTrain, rawLive200, distByLat, m200, round1_200]
  decide

lemma mapTrain_rawTieA : mapTrain distByLat 0 0 rawTieA = .ok mTieA := by
  simp only [mapTrain, rawTieA, distByLat, mTieA, round1_50]
  decide

lemma mapTrain_rawTieB : mapTrain distByLat 0 0 rawTieB = .ok mTieB := by
  simp only [mapTrain, rawTieB, distByLat, mTieB, round1_50]
  decide

lemma mapTrain_cd7_live : mapTrain cd7 0 0 rawLive150 = .ok m7live := by
  simp only [mapTrain, rawLive150, cd7, m7live, round1_7]
  decide

lemma mapTrain_cd7_ghost : mapTrain cd7 0 0 rawGhost10 = .ok m7ghost := by
  simp only [mapTrain, rawGhost10, cd7, m7ghost, round1_7]
  decide

lemma eval_payloadAB :
    find_user_train distByLat 0 0 (.ok payloadAB) =
      .selection true (some m150) "High" [m150, m10g] := by
  have hm : mapTrains distByLat 0 0 [rawLive150, rawGhost10] =
      .ok [m150, m10g] := by
    simp only [mapTrains, mapTrain_rawLive150, mapTrain_rawGhost10]
  rw [find_user_train_selection_eq (by decide)
    (show getRawTrains payloadAB = some [rawLive150, rawGhost10] from rfl) hm]
  decide

lemma eval_payload199 :
    find_user_train distByLat 0 0 (.ok payload199) =
      .selection true (some m199) "High" [m199] := by
  have hm : mapTrains distByLat 0 0 [rawLive199] = .ok [m199] := by
    simp only [mapTrains, mapTrain_rawLive199]
  rw [find_user_train_selection_eq (by decide)
    (show getRawTrains payload199 = some [rawLive199] from rfl) hm]
  have hd : m199.distance_meters < 200 := by
    simp only [m199]
    norm_num
  simp only [sortTrains, List.insertionSort, List.orderedInsert, List.filter,
    confidenceOf, m199]
  norm_num

lemma eval_payload200 :
    find_user_train distByLat 0 0 (.ok payload200) =
      .selection true (some m200) "Low" [m200] := by
  have hm : mapTrains distByLat 0 0 [rawLive200] = .ok [m200] := by
    simp only [mapTrains, mapTrain_rawLive200]
  rw [find_user_train_selection_eq (by decide)
    (show getRawTrains payload200 = some [rawLive200] from rfl) hm]
  decide

lemma eval_payloadTie :
    find_user_train distByLat 0 0 (.ok payloadTie) =
      .selection true (some mTieA) "High" [mTieA, mTieB] := by
  have hm : mapTrains distByLat 0 0 [rawTieA, rawTieB] =
      .ok [mTieA, mTieB] := by
    simp only [mapTrains, mapTrain_rawTieA, mapTrain_rawTieB]
  rw [find_user_train_selection_eq (by decide)
    (show getRawTrains payloadTie = some [rawTieA, rawTieB] from rfl) hm]
  decide

lemma eval_payloadGhostOnly :
    find_user_train distByLat 0 0 (.ok payloadGhostOnly) =
      .selection false none "Low" [m10g] := by
  have hm : mapTrains distByLat 0 0 [rawGhost10] = .ok [m10g] := by
    simp only [mapTrains, mapTrain_rawGhost10]
  rw [find_user_train_selection_eq (by decide)
    (show getRawTrains payloadGhostOnly = some [rawGhost10] from rfl) hm]
  decide

lemma eval_payloadAB_cd7 :
    find_user_train cd7 0 0 (.ok payloadAB) =
      .selection true (some m7live) "High" [m7live, m7ghost] := by
  have hm : mapTrains cd7 0 0 [rawLive150, rawGhost10] =
      .ok [m7live, m7ghost] := by
    simp only [mapTrains, mapTrain_cd7_live, mapTrain_cd7_ghost]
  rw [find_user_train_selection_eq (by decide)
    (show getRawTrains payloadAB = some [rawLive150, rawGhost10] from rfl) hm]
  decide

/-! ## The claims -/

/-- C6: liveness is decided solely by the schedule flag read as a
string: a mapped candidate is a ghost exactly when the record's flag is
`"1"`, and a record whose flag is `"0"` or absent is classified live. -/
theorem C6_liveness_by_flag {cd : ℚ → ℚ → ℚ → ℚ → ℚ} {lat lon : ℚ}
    {t : RawTrain} {m : MappedTrain}
    (h : mapTrain cd lat lon t = .ok m) :
    (m.is_ghost = true ↔ t.isSch = some "1") ∧
    ((t.isSch = some "0" ∨ t.isSch = none) → m.is_ghost = false) := by
  have hg := mapTrain_ok_is_ghost h
  constructor
  · rw [hg]
    cases hs : t.isSch with
    | none => simp
    | some s => simp
  · rintro (h0 | h0) <;> rw [hg, h0] <;> rfl

/-- Witness for C6: the flag-absent record `rawLive199` maps to a live
candidate. -/
theorem C6_liveness_by_flag_witness :
    (m199.is_ghost = true ↔ rawLive199.isSch = some "1") ∧
    ((rawLive199.isSch = some "0" ∨ rawLive199.isSch = none) →
      m199.is_ghost = false) :=
  C6_liveness_by_flag mapTrain_rawLive199

/-- C5: a payload whose error-name field is a non-empty string fails
with the 400 `HTTPException` carrying the upstream error text, while a
network-level failure yields the distinct 500 `HTTPException`. -/
theorem C5_upstream_reported_error {cd : ℚ → ℚ → ℚ → ℚ → ℚ} {lat lon : ℚ}
    {data : Payload} {s : String}
    (h : upstreamErrName data = some s) (hs : s ≠ "") :
    find_user_train cd lat lon (.ok data) =
        .httpError 400 ("CTA API Error: " ++ s) ∧
    (∀ e, find_user_train cd lat lon (.error e) =
        .httpError 500 ("Failed to connect to CTA: " ++ e)) ∧
    (400 : ℕ) ≠ 500 := by
  refine ⟨?_, fun e => rfl, by decide⟩
  have he : errTruthy data = true := by
    unfold errTruthy
    rw [h]
    simp [hs]
  rw [find_user_train_ok_eq, if_pos he, h]
  rfl

/-- Witness for C5: a payload reporting "Invalid API parameter" fails
with status 400 and that text. -/
theorem C5_upstream_reported_error_witness :
    find_user_train distByLat 0 0 (.ok payloadErr) =
        .httpError 400 ("CTA API Error: " ++ "Invalid API parameter") ∧
    (∀ e, find_user_train distByLat 0 0 (.error e) =
        .httpError 500 ("Failed to connect to CTA: " ++ e)) ∧
    (400 : ℕ) ≠ 500 :=
  C5_upstream_reported_error (by rfl) (by decide)

/-- C4 (counterexample to the claim as stated): a payload in which the
route/train structure is absent but whose error-name field is also set
is answered with the 400 error, not with a `found: false` result. -/
theorem C4_counterexample :
    getRawTrains payloadErr = none ∧
    find_user_train distByLat 0 0 (.ok payloadErr) =
      .httpError 400 "CTA API Error: Invalid API parameter" ∧
    find_user_train distByLat 0 0 (.ok payloadErr) ≠
      .notFound "No trains found on this line right now." := by
  decide

/-- C4 (amended): for every payload whose error-name field is not set,
if the expected route/train structure is absent (missing `ctatt` or
`route` key, empty route list, or missing `train` key) then
`find_user_train` returns the normal not-found result with its
explanatory message, and does not raise. -/
theorem C4_missing_shape_not_found {cd : ℚ → ℚ → ℚ → ℚ → ℚ}
    {lat lon : ℚ} {data : Payload}
    (he : errTruthy data = false)
    (habs : data.ctatt = none ∨
      ∃ c, data.ctatt = some c ∧
        (c.route = none ∨ c.route = some [] ∨
          ∃ r rs, c.route = some (r :: rs) ∧ r.train = none)) :
    find_user_train cd lat lon (.ok data) =
      .notFound "No trains found on this line right now." := by
  have hg : getRawTrains data = none := by
    unfold getRawTrains
    rcases habs with h | ⟨c, hc, h⟩
    · rw [h]
    · rcases h with h | h | ⟨r, rs, hr, ht⟩
      · simp [hc, h]
      · simp [hc, h]
      · simp [hc, hr, ht]
  rw [find_user_train_ok_eq, if_neg (by simp [he]), hg]

/-- Witness for C4: the payload with a `ctatt` object but no `route`
key yields the not-found result. -/
theorem C4_missing_shape_not_found_witness :
    find_user_train distByLat 0 0 (.ok payloadNoRoute) =
      .notFound "No trains found on this line right now." :=
  C4_missing_shape_not_found (by rfl) (Or.inr ⟨_, rfl, Or.inl rfl⟩)

/-- C3: the code does not skip a record with missing or non-numeric
coordinates — the conversion error aborts the whole request, even
though a well-formed record follows. -/
theorem C3_parse_failure_aborts :
    getRawTrains payloadBad = some [rawBadCoord, rawLive150] ∧
    find_user_train distByLat 0 0 (.ok payloadBad) =
      .recordError "could not convert vehicle record coordinates to float" := by
  decide

/-- C1: the closest train is the minimum-distance live candidate: it is
live, no live candidate of `all_trains` is strictly closer, no record
with schedule flag `"1"` can be the selected candidate, and the closest
train is absent exactly when the live set is empty. -/
theorem C1_closest_is_min_live {cd : ℚ → ℚ → ℚ → ℚ → ℚ} {lat lon : ℚ}
    {data : Payload} {raws : List RawTrain} {found : Bool}
    {closest : Option MappedTrain} {conf : String} {all : List MappedTrain}
    (hg : getRawTrains data = some raws)
    (h : find_user_train cd lat lon (.ok data) =
      .selection found closest conf all) :
    (∀ c, closest = some c →
      c ∈ all ∧ c.is_ghost = false ∧
      (∀ t ∈ all, t.is_ghost = false →
        c.distance_meters ≤ t.distance_meters) ∧
      (∀ t ∈ raws, t.isSch = some "1" → mapTrain cd lat lon t ≠ .ok c)) ∧
    (closest = none ↔ all.filter (fun t => !t.is_ghost) = []) := by
  obtain ⟨data2, raws2, hup, he, hg2, hm, hclosest, hfound, hconf⟩ :=
    selection_inv h
  cases hup
  rw [hg] at hg2
  cases hg2
  constructor
  · intro c hc
    rw [hclosest] at hc
    have hcmem : c ∈ all.filter (fun t => !t.is_ghost) := by
      apply mem_sortTrains.mp
      cases hsl : sortTrains (all.filter (fun t => !t.is_ghost)) with
      | nil => rw [hsl] at hc; cases hc
      | cons x xs =>
        rw [hsl] at hc
        have hx : x = c := by simpa using hc
        subst hx
        exact List.mem_cons_self x xs
    have hcall : c ∈ all := (List.mem_filter.mp hcmem).1
    have hclive : c.is_ghost = false := by
      have h2 := (List.mem_filter.mp hcmem).2
      simpa using h2
    refine ⟨hcall, hclive, ?_, ?_⟩
    · intro t ht htl
      exact head_sortTrains_min hc t
        (List.mem_filter.mpr ⟨ht, by simp [htl]⟩)
    · intro t ht hflag habs
      have := mapTrain_ok_is_ghost habs
      rw [hflag] at this
      rw [hclive] at this
      exact absurd this.symm (by decide)
  · rw [hclosest]
    rw [List.head?_eq_none_iff]
    exact ⟨fun h2 => sortTrains_eq_nil.mp h2,
      fun h2 => by rw [h2]; rfl⟩

/-- Witness for C1: in the spec example (live at 150 m, ghost at 10 m)
the selected candidate is the live 150 m one: it is live, the ghost
record cannot map to it, and the closest train is present exactly
because the live set is non-empty. -/
theorem C1_closest_is_min_live_witness :
    m150.is_ghost = false ∧
    (mapTrain distByLat 0 0 rawGhost10 ≠ .ok m150) ∧
    ((some m150 : Option MappedTrain) = none ↔
      [m150, m10g].filter (fun t => !t.is_ghost) = []) := by
  have h := C1_closest_is_min_live
    (show getRawTrains payloadAB = some [rawLive150, rawGhost10] from rfl)
    eval_payloadAB
  obtain ⟨h1, h2⟩ := h
  obtain ⟨_, hlive, _, hnever⟩ := h1 m150 rfl
  exact ⟨hlive,
    hnever rawGhost10 (by decide) rfl, h2⟩

/-- C2: the confidence label is "High" exactly when a closest live
candidate exists and its rounded distance is strictly below 200, and it
is always one of "High"/"Low". -/
theorem C2_confidence_iff {cd : ℚ → ℚ → ℚ → ℚ → ℚ} {lat lon : ℚ}
    {up : Except String Payload} {found : Bool}
    {closest : Option MappedTrain} {conf : String} {all : List MappedTrain}
    (h : find_user_train cd lat lon up = .selection found closest conf all) :
    (conf = "High" ↔ ∃ c, closest = some c ∧ c.distance_meters < 200) ∧
    (conf = "High" ∨ conf = "Low") := by
  obtain ⟨data, raws, _, _, _, _, _, _, hconf⟩ := selection_inv h
  subst hconf
  constructor
  · cases closest with
    | none => simp [confidenceOf]
    | some c =>
      by_cases hd : c.distance_meters < 200
      · simp [confidenceOf, hd]
      · simp [confidenceOf, hd]
  · cases closest with
    | none => exact Or.inr rfl
    | some c =>
      by_cases hd : c.distance_meters < 200
      · exact Or.inl (by simp [confidenceOf, hd])
      · exact Or.inr (by simp [confidenceOf, hd])

/-- Witness for C2: at a closest distance of exactly 199.9 the label is
"High", and at exactly 200.0 it is "Low". -/
theorem C2_confidence_iff_witness :
    (("High" : String) = "High" ↔
      ∃ c, (some m199 : Option MappedTrain) = some c ∧
        c.distance_meters < 200) ∧
    (("Low" : String) = "High" ↔
      ∃ c, (some m200 : Option MappedTrain) = some c ∧
        c.distance_meters < 200) :=
  ⟨(C2_confidence_iff eval_payload199).1, (C2_confidence_iff eval_payload200).1⟩

/-- C7: the ranking of live candidates is a stable ascending sort by
distance: the ranked list is sorted by `distance_meters`, restricting it
to any single distance value returns those candidates in their original
upstream order, it is a permutation of the live set, and the closest
train is its head. -/
theorem C7_stable_sort {cd : ℚ → ℚ → ℚ → ℚ → ℚ} {lat lon : ℚ}
    {up : Except String Payload} {found : Bool}
    {closest : Option MappedTrain} {conf : String} {all : List MappedTrain}
    (h : find_user_train cd lat lon up = .selection found closest conf all) :
    ((sortTrains (all.filter (fun t => !t.is_ghost))).Sorted
      (fun a b => a.distance_meters ≤ b.distance_meters)) ∧
    (∀ d : ℚ,
      (sortTrains (all.filter (fun t => !t.is_ghost))).filter
          (fun t => decide (t.distance_meters = d)) =
        (all.filter (fun t => !t.is_ghost)).filter
          (fun t => decide (t.distance_meters = d))) ∧
    closest = (sortTrains (all.filter (fun t => !t.is_ghost))).head? ∧
    List.Perm (sortTrains (all.filter (fun t => !t.is_ghost)))
      (all.filter (fun t => !t.is_ghost)) := by
  obtain ⟨data, raws, _, _, _, _, hclosest, _, _⟩ := selection_inv h
  exact ⟨sortTrains_sorted _, fun d => filter_sortTrains _ d, hclosest,
    sortTrains_perm _⟩

/-- Witness for C7: two live candidates tied at 50 m keep their upstream
order in the ranked list. -/
theorem C7_stable_sort_witness :
    (sortTrains ([mTieA, mTieB].filter (fun t => !t.is_ghost))).filter
        (fun t => decide (t.distance_meters = 50)) =
      ([mTieA, mTieB].filter (fun t => !t.is_ghost)).filter
        (fun t => decide (t.distance_meters = 50)) :=
  (C7_stable_sort eval_payloadTie).2.1 50

/-- C8: the geo-distance function is symmetric in its two points, and
returns 0 for coincident points. -/
theorem C8_symm_and_coincident :
    (∀ lat1 lon1 lat2 lon2 : ℝ,
      calculate_distance lat1 lon1 lat2 lon2 =
        calculate_distance lat2 lon2 lat1 lon1) ∧
    (∀ lat lon : ℝ, calculate_distance lat lon lat lon = 0) :=
  ⟨calculate_distance_symm, calculate_distance_self⟩

/-- C9: the geo-distance function is non-negative everywhere, rounding
to one decimal preserves non-negativity, and every candidate built by
the selector from a non-negative distance function has non-negative
`distance_meters` and a single boolean live/ghost classification
(mutually exclusive and exhaustive). -/
theorem C9_distance_nonneg_and_binary_class :
    (∀ lat1 lon1 lat2 lon2 : ℝ,
      0 ≤ calculate_distance lat1 lon1 lat2 lon2) ∧
    (∀ x : ℚ, 0 ≤ x → 0 ≤ round1 x) ∧
    (∀ (cd : ℚ → ℚ → ℚ → ℚ → ℚ) (lat lon : ℚ)
        (up : Except String Payload) (found : Bool)
        (closest : Option MappedTrain) (conf : String)
        (all : List MappedTrain),
      (∀ a b c d, 0 ≤ cd a b c d) →
      find_user_train cd lat lon up = .selection found closest conf all →
      ∀ t ∈ all, 0 ≤ t.distance_meters ∧
        (t.is_ghost = true ∨ t.is_ghost = false) ∧
        ¬(t.is_ghost = true ∧ t.is_ghost = false)) := by
  refine ⟨calculate_distance_nonneg, fun x hx => round1_nonneg hx, ?_⟩
  intro cd lat lon up found closest conf all hcd h t ht
  obtain ⟨data, raws, _, _, _, hm, _, _, _⟩ := selection_inv h
  obtain ⟨r, hr, hmt⟩ := mapTrains_ok_mem hm t ht
  obtain ⟨t_lat, t_lon, _, _, hd⟩ := mapTrain_ok_distance hmt
  refine ⟨?_, ?_, ?_⟩
  · rw [hd]
    exact round1_nonneg (hcd lat lon t_lat t_lon)
  · cases t.is_ghost with
    | false => exact Or.inr rfl
    | true => exact Or.inl rfl
  · rintro ⟨h1, h2⟩
    rw [h1] at h2
    cases h2

/-- Witness for C9: with the constant distance function `cd7`, every
candidate of the spec-example payload has non-negative distance and a
boolean classification. -/
theorem C9_distance_nonneg_and_binary_class_witness :
    (0:ℚ) ≤ round1 7 ∧
    ((0:ℚ) ≤ m7ghost.distance_meters ∧
      (m7ghost.is_ghost = true ∨ m7ghost.is_ghost = false) ∧
      ¬(m7ghost.is_ghost = true ∧ m7ghost.is_ghost = false)) :=
  ⟨C9_distance_nonneg_and_binary_class.2.1 7 (by norm_num),
   C9_distance_nonneg_and_binary_class.2.2 cd7 0 0 (.ok payloadAB) true
     (some m7live) "High" [m7live, m7ghost]
     (fun _ _ _ _ => by norm_num [cd7]) eval_payloadAB_cd7
     m7ghost (by decide)⟩

/-- C10: whenever the payload parses to a train list and the selector
returns, the response always carries a confidence label ("High" or
"Low"); `all_trains` is exactly the mapped candidate list (ghosts
included, upstream order); and with no live candidate the response is
exactly `found = false`, `closest_train = none`, `confidence = "Low"`. -/
theorem C10_no_live_path {cd : ℚ → ℚ → ℚ → ℚ → ℚ} {lat lon : ℚ}
    {data : Payload} {raws : List RawTrain} {found : Bool}
    {closest : Option MappedTrain} {conf : String} {all : List MappedTrain}
    (hg : getRawTrains data = some raws)
    (h : find_user_train cd lat lon (.ok data) =
      .selection found closest conf all) :
    (conf = "High" ∨ conf = "Low") ∧
    mapTrains cd lat lon raws = .ok all ∧
    (all.filter (fun t => !t.is_ghost) = [] →
      found = false ∧ closest = none ∧ conf = "Low") := by
  obtain ⟨data2, raws2, hup, he, hg2, hm, hclosest, hfound, hconf⟩ :=
    selection_inv h
  cases hup
  rw [hg] at hg2
  cases hg2
  refine ⟨?_, hm, ?_⟩
  · rw [hconf]
    cases closest with
    | none => exact Or.inr rfl
    | some c =>
      by_cases hd : c.distance_meters < 200
      · exact Or.inl (by simp [confidenceOf, hd])
      · exact Or.inr (by simp [confidenceOf, hd])
  · intro hlive
    have hnil : sortTrains (all.filter (fun t => !t.is_ghost)) = [] := by
      rw [hlive]
      rfl
    have hcn : closest = none := by
      rw [hclosest, hnil]
      rfl
    refine ⟨?_, hcn, ?_⟩
    · rw [hfound, hcn]
      rfl
    · rw [hconf, hcn]
      rfl

/-- Witness for C10: the ghost-only payload yields `found = false`,
no closest train, confidence "Low", and `all_trains = [m10g]`. -/
theorem C10_no_live_path_witness :
    (("Low" : String) = "High" ∨ ("Low" : String) = "Low") ∧
    mapTrains distByLat 0 0 [rawGhost10] = .ok [m10g] := by
  have h := C10_no_live_path
    (show getRawTrains payloadGhostOnly = some [rawGhost10] from rfl)
    eval_payloadGhostOnly
  exact ⟨h.1, h.2.1⟩

end TransitSafe
